import Mathlib

/-!
Verification of the `Buffered_serial_device` template of
`src/include/posix-drivers/buffered-serial-device.h` (micro-os-plus
posix-drivers).  The device mediates between a CMSIS-like serial driver
and two `ByteCircularBuffer` ring buffers; we embed the control logic of
`do_vopen`, `do_read`, `do_write` and `do_signal_event` as pure Lean
functions.  The `ByteCircularBuffer` implementation is not part of the
sources here (only its call sites are), so its operations are modelled
from the specification of the circular byte buffer (spec section 4.1).
Blocking calls (`osSemaphoreWait`) are embedded by parametrising the
functions over a finite trace of environment events: what the interrupt
handler did to the shared state during each wait.  A function returning
`none` / `.blocked` on every finite trace corresponds to a call that
never returns.
-/

namespace PosixDrivers

/-- Modelled from the spec: the circular byte buffer (`ByteCircularBuffer`),
whose implementation file is absent from the sources.  It owns storage of
fixed capacity, a read cursor (`front`), an occupied count (`len`), and the
two watermark thresholds.  The write cursor is derived:
`(front + len) % capacity`. -/
structure Buf where
  capacity : Nat
  front : Nat
  len : Nat
  hiwm : Nat
  lowm : Nat
  deriving Repr, DecidableEq

namespace Buf

/-- Well-formedness of a buffer: the read cursor is inside storage and the
occupied count never exceeds the capacity. -/
def WF (b : Buf) : Prop :=
  b.front < b.capacity ∧ b.len ≤ b.capacity

instance (b : Buf) : Decidable b.WF := by
  unfold WF; infer_instance

/-- The derived write cursor: `(front + len) % capacity`. -/
def backIdx (b : Buf) : Nat :=
  (b.front + b.len) % b.capacity

/-- Modelled from the spec: `clear()` resets cursors and occupied count to
empty. -/
def clear (b : Buf) : Buf :=
  { b with front := 0, len := 0 }

/-- Modelled from the spec: the number of bytes `pushBack(data, len)`
actually writes: as many as fit, at most `len` and at most the free
space. -/
def pushBackCount (b : Buf) (n : Nat) : Nat :=
  min n (b.capacity - b.len)

/-- Modelled from the spec: `pushBack` copies `pushBackCount` bytes at the
write cursor and increases the occupied count. -/
def pushBack (b : Buf) (n : Nat) : Buf :=
  { b with len := b.len + b.pushBackCount n }

/-- Modelled from the spec: the number of bytes `popFront(buf, len)`
actually reads: at most `len` and at most the occupied count. -/
def popFrontCount (b : Buf) (n : Nat) : Nat :=
  min n b.len

/-- Modelled from the spec: `popFront` copies `popFrontCount` bytes from the
read cursor, advances it and decreases the occupied count. -/
def popFront (b : Buf) (n : Nat) : Buf :=
  { b with
    front := (b.front + b.popFrontCount n) % b.capacity,
    len := b.len - b.popFrontCount n }

/-- Modelled from the spec: `getFrontContiguousBuffer` returns the length of
the longest run of occupied bytes starting at the read cursor without
wrapping past the storage end; zero if empty. -/
def getFrontContiguousBuffer (b : Buf) : Nat :=
  min (b.capacity - b.front) b.len

/-- Modelled from the spec: `getBackContiguousBuffer` returns the length of
the longest run of free bytes starting at the write cursor without
wrapping; zero if full. -/
def getBackContiguousBuffer (b : Buf) : Nat :=
  min (b.capacity - b.backIdx) (b.capacity - b.len)

/-- Modelled from the spec: the number of bytes `advanceBack(n)` actually
commits, clamped to the free space. -/
def advanceBackCount (b : Buf) (n : Nat) : Nat :=
  min n (b.capacity - b.len)

/-- Modelled from the spec: `advanceBack(n)` commits bytes already written
into the back-contiguous region, increasing the occupied count. -/
def advanceBack (b : Buf) (n : Nat) : Buf :=
  { b with len := b.len + b.advanceBackCount n }

/-- Modelled from the spec: the number of bytes `advanceFront(n)` actually
commits, clamped to the occupied count. -/
def advanceFrontCount (b : Buf) (n : Nat) : Nat :=
  min n b.len

/-- Modelled from the spec: `advanceFront(n)` commits bytes already
transferred out of the front-contiguous region, advancing the read cursor
and decreasing the occupied count. -/
def advanceFront (b : Buf) (n : Nat) : Buf :=
  { b with
    front := (b.front + b.advanceFrontCount n) % b.capacity,
    len := b.len - b.advanceFrontCount n }

/-- Modelled from the spec: `retreatBack()` un-commits exactly one byte of
previously written tail data, freeing one byte of space. -/
def retreatBack (b : Buf) : Buf :=
  { b with len := b.len - 1 }

/-- Modelled from the spec: `isBelowHighWaterMark()` is true iff the
occupied count is below the high threshold. -/
def isBelowHighWaterMark (b : Buf) : Bool :=
  b.len < b.hiwm

/-- Modelled from the spec: `isBelowLowWaterMark()` is true iff the occupied
count is below the low threshold. -/
def isBelowLowWaterMark (b : Buf) : Bool :=
  b.len < b.lowm

end Buf

/-! ## The read path (`do_read`, lines 282-305)

`do_read` loops: under the critical section it pops up to `nbyte` bytes
from the rx buffer; a nonzero count is returned at once; on zero it blocks
on the rx semaphore and retries.  We embed the loop over the finite trace
of rx-buffer states observed at successive iterations (the state changes
between iterations only through the interrupt handler, which runs while
the reader is blocked).  `none` means the trace was exhausted with the
reader still blocked. -/

/-- Embedding of `Buffered_serial_device::do_read`: at each iteration, pop
from the currently observed rx buffer; return the first nonzero popped
count, otherwise block (consume the next observed state) and retry. -/
def do_read : List Buf → Nat → Option Nat
  | [], _ => none
  | b :: rest, nbyte =>
    let count := b.popFrontCount nbyte
    if count > 0 then some count else do_read rest nbyte

/-! ## The write path, buffered mode (`do_write`, lines 307-387)

The buffered branch of `do_write` first tries a fast-path admission (push
as much as fits, but only if the tx buffer is below its high watermark),
then loops: when `tx_busy_` is clear it hands the front-contiguous segment
to the driver's `send` (a failed initiation returns `-1` with
`errno = EIO` at once); when the admitted count equals `nbyte` it returns
`nbyte`; otherwise it blocks on the tx semaphore and pushes the remaining
suffix.  Each `osSemaphoreWait` is embedded as one `WaitEffect`: the bytes
the interrupt handler drained from the tx buffer during the wait and
whether it cleared `tx_busy_`.  Send initiations consume the head of a
`List Bool` oracle (`true` = `ARM_DRIVER_OK`); an exhausted oracle means
the driver keeps accepting. -/

/-- POSIX errno values used by the device. -/
def EIO : Nat := 5

/-- POSIX errno value returned on double open. -/
def EEXIST : Nat := 17

/-- POSIX errno value returned on a failed open sequence. -/
def ENOSR : Nat := 63

/-- What the interrupt handler did to the shared tx state during one
blocking wait on the tx semaphore. -/
structure WaitEffect where
  drained : Nat
  clearBusy : Bool
  deriving Repr, DecidableEq

/-- Result of the buffered write loop: a successful return (the returned
value, the admitted count at return, and the final buffer and busy flag),
an immediate IO error carrying the buffer as the failure left it, or the
trace exhausted with the writer still blocked. -/
inductive WriteResult where
  | ok (ret : Nat) (admitted : Nat) (buf : Buf) (busy : Bool)
  | ioerr (err : Nat) (buf : Buf)
  | blocked
  deriving Repr, DecidableEq

/-- Embedding of the `while (true)` loop of the buffered branch of
`Buffered_serial_device::do_write` (lines 327-386): send phase when not
busy, success check, blocking wait, push of the remaining suffix. -/
def writeLoop (buf : Buf) (busy : Bool) (count nbyte : Nat)
    (sends : List Bool) (waits : List WaitEffect) : WriteResult :=
  let sendNeeded := !busy && decide (0 < buf.getFrontContiguousBuffer)
  let sendOk := if sendNeeded then sends.headD true else true
  if sendNeeded && !sendOk then
    .ioerr EIO buf
  else
    let busy1 := if sendNeeded then true else busy
    let sends1 := if sendNeeded then sends.tail else sends
    if count = nbyte then .ok nbyte count buf busy1
    else
      match waits with
      | [] => .blocked
      | e :: waits' =>
        let buf1 := buf.advanceFront e.drained
        let busy2 := if e.clearBusy then false else busy1
        if count < nbyte then
          writeLoop (buf1.pushBack (nbyte - count)) busy2
            (count + buf1.pushBackCount (nbyte - count)) nbyte sends1 waits'
        else
          writeLoop buf1 busy2 count nbyte sends1 waits'

/-- The fast-path admitted count of the buffered branch of `do_write`
(lines 316-326): push only if the tx buffer is below its high watermark,
admitting as much as fits. -/
def fastAdmitCount (tx : Buf) (nbyte : Nat) : Nat :=
  if tx.isBelowHighWaterMark then tx.pushBackCount nbyte else 0

/-- Embedding of the buffered branch of `Buffered_serial_device::do_write`
(tx buffer present): fast-path admission followed by the send/wait/push
loop. -/
def do_write_buffered (tx : Buf) (busy : Bool) (nbyte : Nat)
    (sends : List Bool) (waits : List WaitEffect) : WriteResult :=
  let count := fastAdmitCount tx nbyte
  let tx1 := if tx.isBelowHighWaterMark then tx.pushBack nbyte else tx
  writeLoop tx1 busy count nbyte sends waits

/-! ## The interrupt-context completion handler (`do_signal_event`,
lines 447-522)

The handler reacts to an event mask: receive-related events commit the
delta of the driver's cumulative rx counter into the rx buffer and, on
receive-complete, re-arm the driver receive; a transmit-complete event
commits the driver's tx count into the tx buffer and re-issues the next
segment or clears `tx_busy_`.  The output records the new device state,
the semaphore releases, the re-issued transfer lengths, and the values of
the `assert` checks in the handler. -/

/-- The event mask bits of the CMSIS serial driver callback that the
handler inspects. -/
structure Event where
  rxComplete : Bool
  rxFramingError : Bool
  rxTimeout : Bool
  txComplete : Bool
  deriving Repr, DecidableEq

/-- The device state fields that `do_signal_event` touches: the rx buffer,
the optional tx buffer, the last-observed rx counter `rx_count_` and the
software `tx_busy_` flag. -/
structure DevState where
  rx : Buf
  tx : Option Buf
  rxCount : Nat
  txBusy : Bool
  deriving Repr, DecidableEq

/-- Outcome of the receive branch of `do_signal_event` (lines 451-488). -/
structure RxOut where
  rx : Buf
  rxCount : Nat
  released : Bool
  rearm : Option Nat
  commitOk : Bool
  rearmPos : Bool
  deriving Repr, DecidableEq

/-- Outcome of the transmit-complete branch of `do_signal_event`
(lines 489-521). -/
structure TxOut where
  tx : Option Buf
  txBusy : Bool
  released : Bool
  resend : Option Nat
  commitOk : Bool
  deriving Repr, DecidableEq

/-- Full outcome of `do_signal_event`: final state, semaphore releases,
re-issued transfers, and the `assert` checks. -/
structure SigOut where
  st : DevState
  rxReleased : Bool
  txReleased : Bool
  rearm : Option Nat
  resend : Option Nat
  rxCommitOk : Bool
  rearmPos : Bool
  txCommitOk : Bool
  deriving Repr, DecidableEq

/-- Receive branch of `do_signal_event` (lines 454-487): commit the delta
of the cumulative rx counter via `advanceBack` (the `assert` at line 460
checks the adjustment equals the delta); on receive-complete, re-arm with
a back-contiguous segment, retreating one byte if it is empty (the
`assert` at line 473 checks the re-armed length is positive) and reset
`rx_count_` to zero; release the rx semaphore iff the delta is positive. -/
def rxEventBranch (rx : Buf) (rxCount : Nat) (rxComplete : Bool)
    (rxTotal : Nat) : RxOut :=
  let count := rxTotal - rxCount
  let adjust := rx.advanceBackCount count
  let rx1 := rx.advanceBack count
  let commitOk := decide (count = adjust)
  if rxComplete then
    let nb0 := rx1.getBackContiguousBuffer
    let rx2 := if nb0 = 0 then rx1.retreatBack else rx1
    let nbyte := if nb0 = 0 then rx2.getBackContiguousBuffer else nb0
    { rx := rx2, rxCount := 0, released := decide (0 < count),
      rearm := some nbyte, commitOk := commitOk,
      rearmPos := decide (0 < nbyte) }
  else
    { rx := rx1, rxCount := rxTotal, released := decide (0 < count),
      rearm := none, commitOk := commitOk, rearmPos := true }

/-- Transmit-complete branch of `do_signal_event` (lines 491-520): in
buffered mode, commit the driver's tx count via `advanceFront` (the
`assert` at line 495 checks the adjustment matches), re-issue the next
front-contiguous segment or clear `tx_busy_`, and release the tx
semaphore iff the buffer is below the low watermark; in unbuffered mode,
release the tx semaphore unconditionally. -/
def txEventBranch (tx : Option Buf) (txBusy : Bool) (txTotal : Nat) :
    TxOut :=
  match tx with
  | some b =>
    let adjust := b.advanceFrontCount txTotal
    let b1 := b.advanceFront txTotal
    let commitOk := decide (txTotal = adjust)
    let nbyte := b1.getFrontContiguousBuffer
    if 0 < nbyte then
      { tx := some b1, txBusy := txBusy,
        released := b1.isBelowLowWaterMark, resend := some nbyte,
        commitOk := commitOk }
    else
      { tx := some b1, txBusy := false,
        released := b1.isBelowLowWaterMark, resend := none,
        commitOk := commitOk }
  | none =>
    { tx := none, txBusy := txBusy, released := true, resend := none,
      commitOk := true }

/-- Embedding of `Buffered_serial_device::do_signal_event`: dispatch on
the event mask, with `rxTotal`/`txTotal` the driver's cumulative
`get_rx_count`/`get_tx_count` readings. -/
def do_signal_event (st : DevState) (ev : Event) (rxTotal txTotal : Nat) :
    SigOut :=
  let rxBit := ev.rxComplete || ev.rxFramingError || ev.rxTimeout
  let r :=
    if rxBit then rxEventBranch st.rx st.rxCount ev.rxComplete rxTotal
    else
      { rx := st.rx, rxCount := st.rxCount, released := false,
        rearm := none, commitOk := true, rearmPos := true }
  let t :=
    if ev.txComplete then txEventBranch st.tx st.txBusy txTotal
    else
      { tx := st.tx, txBusy := st.txBusy, released := false,
        resend := none, commitOk := true }
  { st := { rx := r.rx, tx := t.tx, rxCount := r.rxCount,
            txBusy := t.txBusy },
    rxReleased := r.released, txReleased := t.released,
    rearm := r.rearm, resend := t.resend,
    rxCommitOk := r.commitOk, rearmPos := r.rearmPos,
    txCommitOk := t.commitOk }

/-! ## Open (`do_vopen`, lines 168-253) and `doIsOpened` (lines 255-260)

`do_vopen` rejects a double open with `EEXIST`; otherwise it creates the
two semaphores, clears the buffers, initialises and powers the driver,
configures the line, enables TX and RX, and arms the first receive.  Any
failing step falls through to the rollback (power off + uninitialise) and
returns `-1` with `errno = ENOSR`.  Each fallible step's outcome is an
oracle bit. -/

/-- The success/failure outcome of each fallible step of the open
sequence. -/
structure OpenOracle where
  rxSemOk : Bool
  txSemOk : Bool
  initOk : Bool
  powerOk : Bool
  cfgOk : Bool
  txEnOk : Bool
  rxEnOk : Bool
  recvOk : Bool
  deriving Repr, DecidableEq

/-- The device and driver state that the open sequence touches: whether
the two semaphores are non-null, whether the driver is initialised and
powered, and the two buffers. -/
structure OpenState where
  rxSem : Bool
  txSem : Bool
  inited : Bool
  powered : Bool
  rx : Buf
  tx : Option Buf
  deriving Repr, DecidableEq

/-- Result of `do_vopen`: the POSIX return value, the errno set (if any),
and the resulting state. -/
structure OpenOut where
  ret : Int
  errno : Option Nat
  st : OpenState
  deriving Repr, DecidableEq

/-- The rollback of a failed open (lines 242-249): power off and
uninitialise the driver, set `errno = ENOSR` and return `-1`.  The
semaphore fields are not touched. -/
def rollbackFail (st : OpenState) : OpenOut :=
  { ret := -1, errno := some ENOSR,
    st := { st with powered := false, inited := false } }

/-- Embedding of `Buffered_serial_device::do_vopen`: the `EEXIST` early
return, then the `do { } while(false)` step sequence with fall-through to
the rollback on the first failing step. -/
def do_vopen (st : OpenState) (o : OpenOracle) : OpenOut :=
  if st.rxSem then { ret := -1, errno := some EEXIST, st := st }
  else
    let st1 := { st with rxSem := o.rxSemOk, txSem := o.txSemOk }
    if !(o.rxSemOk && o.txSemOk) then rollbackFail st1
    else
      let st2 := { st1 with rx := st1.rx.clear, tx := st1.tx.map Buf.clear }
      if !o.initOk then rollbackFail st2
      else
        let st3 := { st2 with inited := true }
        if !o.powerOk then rollbackFail st3
        else
          let st4 := { st3 with powered := true }
          if !o.cfgOk then rollbackFail st4
          else if !o.txEnOk then rollbackFail st4
          else if !o.rxEnOk then rollbackFail st4
          else if !o.recvOk then rollbackFail st4
          else { ret := 0, errno := none, st := st4 }

/-- Embedding of `Buffered_serial_device::doIsOpened`: the device reports
itself open iff `rx_sem_` is non-null. -/
def doIsOpened (st : OpenState) : Bool :=
  st.rxSem

/-- All steps of the open sequence succeed. -/
def OpenOracle.allOk (o : OpenOracle) : Bool :=
  o.rxSemOk && o.txSemOk && o.initOk && o.powerOk && o.cfgOk &&
    o.txEnOk && o.rxEnOk && o.recvOk

/-! ## Theorems -/

/-- C1: on an open device, `do_read(buf, n)` with `n > 0` never returns 0:
it returns the first nonzero popped count, which is at least 1 and at most
`n`, and whenever a pop yields zero bytes it blocks on the rx semaphore
and retries against the next observed buffer state. -/
theorem do_read_first_nonzero_pop (bufs : List Buf) (n : Nat)
    (h : 0 < n) :
    (∀ c, do_read bufs n = some c → 1 ≤ c ∧ c ≤ n) ∧
    (∀ b rest, Buf.popFrontCount b n = 0 →
      do_read (b :: rest) n = do_read rest n) ∧
    (∀ b rest c, do_read (b :: rest) n = some c →
      0 < Buf.popFrontCount b n → c = Buf.popFrontCount b n) := by
  refine ⟨?_, ?_, ?_⟩
  · intro c hc
    induction bufs with
    | nil => simp [do_read] at hc
    | cons b rest ih =>
      rw [do_read] at hc
      by_cases hp : 0 < Buf.popFrontCount b n
      · simp only [hp, if_true, Option.some.injEq] at hc
        subst hc
        exact ⟨hp, Nat.min_le_left _ _⟩
      · simp only [hp, if_false] at hc
        exact ih hc
  · intro b rest hz
    rw [do_read]
    simp [hz]
  · intro b rest c hc hp
    rw [do_read] at hc
    simp only [hp, if_true, Option.some.injEq] at hc
    exact hc.symm

/-- Witness for C1 at a concrete trace: an empty buffer followed by one
holding 5 bytes, read of up to 3 bytes. -/
theorem do_read_first_nonzero_pop_witness : 1 ≤ 3 ∧ 3 ≤ 3 :=
  (do_read_first_nonzero_pop [⟨8, 0, 0, 6, 2⟩, ⟨8, 0, 5, 6, 2⟩] 3
    (by decide)).1 3 (by decide)

/-- Helper for C2: whenever the buffered write loop returns successfully,
the returned value is `nbyte` and the loop exits only with the admitted
count equal to `nbyte`. -/
theorem writeLoop_ok_ret (waits : List WaitEffect) (buf : Buf)
    (busy : Bool) (count nbyte : Nat) (sends : List Bool)
    (r a : Nat) (b : Buf) (bz : Bool)
    (h : writeLoop buf busy count nbyte sends waits = .ok r a b bz) :
    r = nbyte ∧ a = nbyte := by
  induction waits generalizing buf busy count sends with
  | nil =>
    rw [writeLoop] at h
    by_cases hs :
        ((!busy && decide (0 < buf.getFrontContiguousBuffer)) &&
          !(if !busy && decide (0 < buf.getFrontContiguousBuffer) then
              sends.headD true else true)) = true
    · simp only [hs, if_true] at h
      exact absurd h (by simp)
    · simp only [hs, if_false] at h
      by_cases hce : count = nbyte
      · simp only [hce, if_true] at h
        cases h
        exact ⟨rfl, rfl⟩
      · simp only [hce, if_false] at h
        exact absurd h (by simp)
  | cons e waits' ih =>
    rw [writeLoop] at h
    by_cases hs :
        ((!busy && decide (0 < buf.getFrontContiguousBuffer)) &&
          !(if !busy && decide (0 < buf.getFrontContiguousBuffer) then
              sends.headD true else true)) = true
    · simp only [hs, if_true] at h
      exact absurd h (by simp)
    · simp only [hs, if_false] at h
      by_cases hce : count = nbyte
      · simp only [hce, if_true] at h
        cases h
        exact ⟨rfl, rfl⟩
      · simp only [hce, if_false] at h
        by_cases hlt : count < nbyte
        · simp only [hlt, if_true] at h
          exact ih _ _ _ _ h
        · simp only [hlt, if_false] at h
          exact ih _ _ _ _ h

/-- C2: in buffered mode, a `do_write` that encounters no send-initiation
failure returns exactly `nbyte`, and only once the count of bytes admitted
into the tx ring buffer equals `nbyte`. -/
theorem do_write_buffered_ok_all_admitted (tx : Buf) (busy : Bool)
    (nbyte : Nat) (sends : List Bool) (waits : List WaitEffect)
    (r a : Nat) (b : Buf) (bz : Bool)
    (h : do_write_buffered tx busy nbyte sends waits = .ok r a b bz) :
    r = nbyte ∧ a = nbyte := by
  unfold do_write_buffered at h
  exact writeLoop_ok_ret _ _ _ _ _ _ _ _ _ _ h

/-- Witness for C2 at a concrete run: an empty tx buffer of capacity 8
accepts a 3-byte write in the fast path and the loop returns 3. -/
theorem do_write_buffered_ok_all_admitted_witness : 3 = 3 ∧ 3 = 3 :=
  do_write_buffered_ok_all_admitted ⟨8, 0, 0, 6, 2⟩ false 3 [] []
    3 3 ⟨8, 0, 3, 6, 2⟩ true (by decide)

/-- C3: on any receive-related event, the handler takes the delta between
the driver's cumulative rx counter and the stored baseline, commits it via
`advanceBack` with the asserted adjustment equal to the delta (given the
buffer bookkeeping has the room the delta claims), and releases the rx
semaphore iff the delta is positive. -/
theorem do_signal_event_rx_delta_commit (st : DevState) (ev : Event)
    (rxTotal txTotal : Nat)
    (hbit : (ev.rxComplete || ev.rxFramingError || ev.rxTimeout) = true)
    (hfree : rxTotal - st.rxCount ≤ st.rx.capacity - st.rx.len) :
    Buf.advanceBackCount st.rx (rxTotal - st.rxCount)
        = rxTotal - st.rxCount ∧
    (do_signal_event st ev rxTotal txTotal).rxCommitOk = true ∧
    (do_signal_event st ev rxTotal txTotal).rxReleased
        = decide (0 < rxTotal - st.rxCount) := by
  have hadj : Buf.advanceBackCount st.rx (rxTotal - st.rxCount)
      = rxTotal - st.rxCount := Nat.min_eq_left hfree
  refine ⟨hadj, ?_, ?_⟩ <;>
    · simp only [do_signal_event, rxEventBranch]
      rw [hbit]
      cases hrc : ev.rxComplete <;> simp [hrc, hadj]

/-- Witness for C3: device with rx buffer of capacity 8 holding 3 bytes,
baseline 1, driver counter 4 (delta 3), on an rx-timeout event. -/
theorem do_signal_event_rx_delta_commit_witness :
    Buf.advanceBackCount ⟨8, 2, 3, 6, 2⟩ (4 - 1) = 4 - 1 ∧
    (do_signal_event ⟨⟨8, 2, 3, 6, 2⟩, none, 1, false⟩
        ⟨false, false, true, false⟩ 4 0).rxCommitOk = true ∧
    (do_signal_event ⟨⟨8, 2, 3, 6, 2⟩, none, 1, false⟩
        ⟨false, false, true, false⟩ 4 0).rxReleased
        = decide (0 < 4 - 1) :=
  do_signal_event_rx_delta_commit ⟨⟨8, 2, 3, 6, 2⟩, none, 1, false⟩
    ⟨false, false, true, false⟩ 4 0 (by decide) (by decide)

/-- Helper: `advanceBack` preserves buffer well-formedness. -/
theorem Buf.advanceBack_WF (b : Buf) (h : b.WF) (n : Nat) :
    (b.advanceBack n).WF := by
  obtain ⟨hf, hl⟩ := h
  refine ⟨hf, ?_⟩
  show b.len + b.advanceBackCount n ≤ b.capacity
  calc b.len + b.advanceBackCount n
      ≤ b.len + (b.capacity - b.len) := by
        exact Nat.add_le_add_left (Nat.min_le_right _ _) _
    _ = b.capacity := Nat.add_sub_cancel' hl

/-- Helper: for a well-formed buffer, the back-contiguous segment is empty
exactly when the buffer is full. -/
theorem Buf.getBack_eq_zero_iff (b : Buf) (h : b.WF) :
    b.getBackContiguousBuffer = 0 ↔ b.len = b.capacity := by
  obtain ⟨hf, hl⟩ := h
  have hcap : 0 < b.capacity := Nat.lt_of_le_of_lt (Nat.zero_le _) hf
  have hidx : b.backIdx < b.capacity := Nat.mod_lt _ hcap
  unfold getBackContiguousBuffer
  constructor
  · intro hz
    rcases Nat.min_eq_zero_iff.mp hz with h1 | h2
    · exact absurd (Nat.sub_pos_of_lt hidx) (by omega)
    · omega
  · intro he
    simp [he]

/-- Helper: after `retreatBack` on a full well-formed buffer, the next
back-contiguous segment has length at least 1. -/
theorem Buf.retreat_getBack_pos (b : Buf) (h : b.WF)
    (hfull : b.len = b.capacity) :
    0 < b.retreatBack.getBackContiguousBuffer := by
  obtain ⟨hf, _⟩ := h
  have hcap : 0 < b.capacity := Nat.lt_of_le_of_lt (Nat.zero_le _) hf
  have hidx : (b.retreatBack).backIdx < b.capacity := Nat.mod_lt _ hcap
  unfold retreatBack at hidx ⊢
  unfold getBackContiguousBuffer
  simp only [hfull] at hidx ⊢
  have h1 : 0 < b.capacity - (b.front + (b.capacity - 1)) % b.capacity := by
    unfold backIdx at hidx
    simp only at hidx
    omega
  have h2 : 0 < b.capacity - (b.capacity - 1) := by omega
  unfold backIdx
  simp only
  omega

/-- C4: on every receive-complete event with a well-formed rx buffer, the
handler re-issues the driver receive with a segment of positive length
(retreating one byte when the buffer is momentarily full), the assertion
on the re-armed length holds, and the baseline `rx_count_` is reset to
zero. -/
theorem do_signal_event_rearm_positive (st : DevState) (ev : Event)
    (rxTotal txTotal : Nat) (hc : ev.rxComplete = true)
    (hwf : st.rx.WF) :
    (∃ k, (do_signal_event st ev rxTotal txTotal).rearm = some k ∧
      0 < k) ∧
    (do_signal_event st ev rxTotal txTotal).rearmPos = true ∧
    (do_signal_event st ev rxTotal txTotal).st.rxCount = 0 := by
  have hwf1 : (st.rx.advanceBack (rxTotal - st.rxCount)).WF :=
    Buf.advanceBack_WF st.rx hwf _
  by_cases hz : (st.rx.advanceBack
      (rxTotal - st.rxCount)).getBackContiguousBuffer = 0
  · have hfull := (Buf.getBack_eq_zero_iff _ hwf1).mp hz
    have hpos := Buf.retreat_getBack_pos _ hwf1 hfull
    refine ⟨⟨_, ?_, hpos⟩, ?_, ?_⟩ <;>
      simp [do_signal_event, rxEventBranch, hc, hz, hpos]
  · have hpos : 0 < (st.rx.advanceBack
        (rxTotal - st.rxCount)).getBackContiguousBuffer :=
      Nat.pos_of_ne_zero hz
    refine ⟨⟨_, ?_, hpos⟩, ?_, ?_⟩ <;>
      simp [do_signal_event, rxEventBranch, hc, hz, hpos]

/-- Witness for C4: receive-complete that fills an rx buffer of capacity 8
completely, forcing the retreat-one-byte path. -/
theorem do_signal_event_rearm_positive_witness :
    (∃ k, (do_signal_event ⟨⟨8, 2, 6, 6, 2⟩, none, 0, false⟩
        ⟨true, false, false, false⟩ 2 0).rearm = some k ∧ 0 < k) ∧
    (do_signal_event ⟨⟨8, 2, 6, 6, 2⟩, none, 0, false⟩
        ⟨true, false, false, false⟩ 2 0).rearmPos = true ∧
    (do_signal_event ⟨⟨8, 2, 6, 6, 2⟩, none, 0, false⟩
        ⟨true, false, false, false⟩ 2 0).st.rxCount = 0 :=
  do_signal_event_rearm_positive ⟨⟨8, 2, 6, 6, 2⟩, none, 0, false⟩
    ⟨true, false, false, false⟩ 2 0 (by decide) (by decide)

/-- C5: on a transmit-complete event (with a transmit in flight), the
buffered-mode handler commits the driver's reported count via
`advanceFront` with a matching assertion, re-issues the remaining
front-contiguous segment keeping `tx_busy_` set, or clears `tx_busy_`
when none remains; it releases the tx semaphore iff the tx buffer is
below the low watermark, and unconditionally in unbuffered mode. -/
theorem do_signal_event_tx_complete (st : DevState) (ev : Event)
    (rxTotal txTotal : Nat) (b : Buf) (ht : ev.txComplete = true)
    (hbusy : st.txBusy = true) :
    (st.tx = some b → txTotal ≤ b.len →
      (do_signal_event st ev rxTotal txTotal).txCommitOk = true ∧
      (do_signal_event st ev rxTotal txTotal).st.tx
          = some (b.advanceFront txTotal) ∧
      (0 < (b.advanceFront txTotal).getFrontContiguousBuffer →
        (do_signal_event st ev rxTotal txTotal).resend
            = some (b.advanceFront txTotal).getFrontContiguousBuffer ∧
        (do_signal_event st ev rxTotal txTotal).st.txBusy = true) ∧
      ((b.advanceFront txTotal).getFrontContiguousBuffer = 0 →
        (do_signal_event st ev rxTotal txTotal).resend = none ∧
        (do_signal_event st ev rxTotal txTotal).st.txBusy = false) ∧
      (do_signal_event st ev rxTotal txTotal).txReleased
          = (b.advanceFront txTotal).isBelowLowWaterMark) ∧
    (st.tx = none →
      (do_signal_event st ev rxTotal txTotal).txReleased = true) := by
  constructor
  · intro htx hle
    have hadj : Buf.advanceFrontCount b txTotal = txTotal :=
      Nat.min_eq_left hle
    by_cases hp : 0 < (b.advanceFront txTotal).getFrontContiguousBuffer
    · refine ⟨?_, ?_, fun _ => ⟨?_, ?_⟩,
        fun hz => absurd hp (by omega), ?_⟩ <;>
        simp [do_signal_event, txEventBranch, ht, htx, hadj, hp, hbusy]
    · have hz : (b.advanceFront txTotal).getFrontContiguousBuffer = 0 :=
        by omega
      refine ⟨?_, ?_, fun hgt => absurd hgt hp, fun _ => ⟨?_, ?_⟩, ?_⟩ <;>
        simp [do_signal_event, txEventBranch, ht, htx, hadj, hz]
  · intro htx
    simp [do_signal_event, txEventBranch, ht, htx]

/-- Witness for C5: transmit-complete with 3 of 5 buffered bytes reported
sent; a 2-byte front segment remains and is re-issued. -/
theorem do_signal_event_tx_complete_witness :
    (⟨⟨8, 0, 0, 6, 2⟩, some ⟨8, 1, 5, 6, 2⟩, 0, true⟩ : DevState).tx
        = some ⟨8, 1, 5, 6, 2⟩ ∧
    (do_signal_event ⟨⟨8, 0, 0, 6, 2⟩, some ⟨8, 1, 5, 6, 2⟩, 0, true⟩
        ⟨false, false, false, true⟩ 0 3).txCommitOk = true :=
  have h := do_signal_event_tx_complete
    ⟨⟨8, 0, 0, 6, 2⟩, some ⟨8, 1, 5, 6, 2⟩, 0, true⟩
    ⟨false, false, false, true⟩ 0 3 ⟨8, 1, 5, 6, 2⟩ (by decide)
    (by decide)
  ⟨rfl, (h.1 rfl (by decide)).1⟩

/-- A closed device starting state used for the open-sequence facts. -/
def closedState : OpenState :=
  { rxSem := false, txSem := false, inited := false, powered := false,
    rx := ⟨16, 0, 0, 12, 4⟩, tx := some ⟨16, 0, 0, 12, 4⟩ }

/-- An open-sequence oracle in which both semaphore creations succeed but
the driver's initialisation step fails. -/
def initFailOracle : OpenOracle :=
  { rxSemOk := true, txSemOk := true, initOk := false, powerOk := true,
    cfgOk := true, txEnOk := true, rxEnOk := true, recvOk := true }

/-- C6 counterexample: when the driver initialisation step fails after
both semaphores were created, `do_vopen` does roll back the driver and
return `-1` with `errno = ENOSR`, but `rx_sem_` is never reset, so the
device still reports itself as open — partial-open state is observable,
contradicting the claim. -/
theorem do_vopen_fail_reports_open :
    (do_vopen closedState initFailOracle).ret = -1 ∧
    (do_vopen closedState initFailOracle).errno = some ENOSR ∧
    doIsOpened (do_vopen closedState initFailOracle).st = true := by
  decide

/-- C6 amended: every failure in the open sequence returns `-1` with
`errno = ENOSR` and powers off and uninitialises the driver, but the
created semaphores are not released, so the device reports itself open
after the failure exactly when the rx semaphore creation succeeded. -/
theorem do_vopen_fail_rollback (st : OpenState) (o : OpenOracle)
    (hclosed : st.rxSem = false) (hfail : o.allOk = false) :
    (do_vopen st o).ret = -1 ∧
    (do_vopen st o).errno = some ENOSR ∧
    (do_vopen st o).st.powered = false ∧
    (do_vopen st o).st.inited = false ∧
    doIsOpened (do_vopen st o).st = o.rxSemOk := by
  obtain ⟨a, b, c, d, e, f, g, k⟩ := o
  simp only [OpenOracle.allOk] at hfail
  cases a <;> cases b <;> cases c <;> cases d <;> cases e <;> cases f <;>
    cases g <;> cases k <;>
    simp_all [do_vopen, rollbackFail, doIsOpened]

/-- Witness for the amended C6 at the concrete failing oracle. -/
theorem do_vopen_fail_rollback_witness :
    (do_vopen closedState initFailOracle).ret = -1 ∧
    (do_vopen closedState initFailOracle).errno = some ENOSR ∧
    (do_vopen closedState initFailOracle).st.powered = false ∧
    (do_vopen closedState initFailOracle).st.inited = false ∧
    doIsOpened (do_vopen closedState initFailOracle).st
        = initFailOracle.rxSemOk :=
  do_vopen_fail_rollback closedState initFailOracle (by decide)
    (by decide)

/-- C7: `do_vopen` on an already-open device returns `-1` with
`errno = EEXIST` and leaves the entire device state unchanged. -/
theorem do_vopen_already_open (st : OpenState) (o : OpenOracle)
    (hopen : st.rxSem = true) :
    do_vopen st o = { ret := -1, errno := some EEXIST, st := st } := by
  simp [do_vopen, hopen]

/-- Witness for C7: a device already holding its session state. -/
theorem do_vopen_already_open_witness :
    do_vopen ⟨true, true, true, true, ⟨16, 0, 3, 12, 4⟩, none⟩
        initFailOracle
      = { ret := -1, errno := some EEXIST,
          st := ⟨true, true, true, true, ⟨16, 0, 3, 12, 4⟩, none⟩ } :=
  do_vopen_already_open ⟨true, true, true, true, ⟨16, 0, 3, 12, 4⟩, none⟩
    initFailOracle (by decide)

/-- The tx buffer of the C8 scenario: capacity 32, high watermark 24,
empty. -/
def txBuf32 : Buf := ⟨32, 0, 0, 24, 8⟩

/-- C8 counterexample: for an empty tx buffer of capacity 32 with high
watermark 24, the fast path of `do_write` admits 32 bytes of a 100-byte
write before the first transmit is dispatched — more than the claimed
bound of 24. -/
theorem fastAdmit_exceeds_watermark :
    fastAdmitCount txBuf32 100 = 32 ∧
    ¬ fastAdmitCount txBuf32 100 ≤ 24 := by
  decide

/-- C8 amended: the high-watermark check only gates whether the fast path
pushes at all; the push itself admits up to the free space, so a single
admission burst is bounded by the buffer capacity (and the request), not
by the high watermark: for capacity 32, high watermark 24 and an empty
buffer, a 100-byte write admits 32 bytes before the first transmit is
dispatched. -/
theorem fastAdmit_bounded_by_capacity :
    (∀ tx n, fastAdmitCount tx n ≤ tx.capacity - tx.len ∧
      fastAdmitCount tx n ≤ n) ∧
    fastAdmitCount txBuf32 100 = 32 := by
  constructor
  · intro tx n
    unfold fastAdmitCount Buf.pushBackCount
    split
    · exact ⟨Nat.min_le_right _ _, Nat.min_le_left _ _⟩
    · exact ⟨Nat.zero_le _, Nat.zero_le _⟩
  · decide

/-- C9: if the write loop reaches a send initiation (not busy, nonempty
front-contiguous segment) and the driver rejects it, `do_write` returns
the IO error (`-1` with `errno = EIO`) immediately — for every remaining
wait trace, so without further blocking — and carries the tx buffer
unchanged: the already-admitted prefix is not un-admitted. -/
theorem writeLoop_send_fail_ioerr (buf : Buf) (count nbyte : Nat)
    (sends : List Bool) (waits : List WaitEffect)
    (hnb : 0 < buf.getFrontContiguousBuffer)
    (hfail : sends.headD true = false) :
    writeLoop buf false count nbyte sends waits = .ioerr EIO buf := by
  rw [writeLoop]
  rw [List.headD_eq_head?] at hfail
  simp [hnb, hfail]

/-- Witness for C9: a tx buffer holding 4 admitted bytes, driver refuses
the send; the error carries the buffer with the 4 bytes still queued. -/
theorem writeLoop_send_fail_ioerr_witness :
    writeLoop ⟨8, 0, 4, 6, 2⟩ false 4 10 [false] [⟨2, true⟩]
      = .ioerr EIO ⟨8, 0, 4, 6, 2⟩ :=
  writeLoop_send_fail_ioerr ⟨8, 0, 4, 6, 2⟩ 4 10 [false] [⟨2, true⟩]
    (by decide) (by decide)

/-- C10: `do_read` with `nbyte = 0` never returns: every pop yields zero
bytes, so for every finite trace of observed rx-buffer states — with or
without data — the reader is still blocked at its end. -/
theorem do_read_zero_never_returns (bufs : List Buf) :
    do_read bufs 0 = none := by
  induction bufs with
  | nil => rfl
  | cons b rest ih => simp [do_read, Buf.popFrontCount, ih]

end PosixDrivers
